import Mathlib

/-!
Shallow embedding of the lobby page of the playlisto repository
(`src/app/lobby/[id]/page.tsx`) and proofs about its view-model logic.

The page is a React client component.  Its reactive state
(`useState` hooks) is modelled by the structure `LobbyState`; its event
handlers become pure functions from state (plus the event payload) to a new
state together with the list of channel messages emitted and UI actions
performed.  React closure semantics matter in one place: a callback created
inside a render closes over the state values of that render, not over the
live state; `handleStartGame` records the captured value explicitly.
-/

namespace Playlisto

/-- A player in the lobby, mirroring the `Player` interface of the source. -/
structure Player where
  id : String
  name : String
  isReady : Bool
  isHost : Bool
deriving Repr, DecidableEq

/-- A formatted playlist, mirroring the `Playlist` interface of the source.
`imageUrl` is optional (`imageUrl?: string`); `none` models a null/absent
artwork url. -/
structure Playlist where
  id : String
  name : String
  tracks : Nat
  imageUrl : Option String
deriving Repr, DecidableEq

/-- The reactive state of `LobbyPage` that the lobby protocol touches:
`players`, `isReady` (the local readiness mirror), `spotifyToken`,
`selectedPlaylist` and `isStarting`.  (`playlists` and the dialog flag are
presentational and not needed by any claim.) -/
structure LobbyState where
  players : List Player
  isReady : Bool
  spotifyToken : Option String
  selectedPlaylist : Option Playlist
  isStarting : Bool
deriving Repr, DecidableEq

/-- A `lobbyUpdate` broadcast snapshot: `{players, spotifyPlaylist?}`.
`spotifyPlaylist = none` models a snapshot whose `spotifyPlaylist` field is
absent or falsy. -/
structure LobbySnapshot where
  players : List Player
  spotifyPlaylist : Option Playlist
deriving Repr, DecidableEq

/-- The `lobbyUpdate` handler:
`setPlayers(lobby.players); if (lobby.spotifyPlaylist) setSelectedPlaylist(lobby.spotifyPlaylist)`.
Players are replaced wholesale; the selection is overwritten only when the
snapshot carries a (truthy) playlist. -/
def onLobbyUpdate (s : LobbyState) (snap : LobbySnapshot) : LobbyState :=
  { s with
    players := snap.players
    selectedPlaylist :=
      match snap.spotifyPlaylist with
      | some pl => some pl
      | none => s.selectedPlaylist }

/-- The start button's `disabled` predicate:
`!selectedPlaylist || !spotifyToken || !players.filter(p => !p.isHost).every(p => p.isReady) || isStarting`. -/
def startButtonDisabled (s : LobbyState) : Bool :=
  !s.selectedPlaylist.isSome ||
  !s.spotifyToken.isSome ||
  !((s.players.filter fun p => !p.isHost).all fun p => p.isReady) ||
  s.isStarting

/-- C1: the start control is enabled (disabled = false) iff a playlist is
selected, a credential is present, every non-host player is ready, and no
start is in flight. -/
theorem start_control_enabled_iff (s : LobbyState) :
    startButtonDisabled s = false ↔
      (s.selectedPlaylist ≠ none ∧ s.spotifyToken ≠ none ∧
       (∀ p ∈ s.players, p.isHost = false → p.isReady = true) ∧
       s.isStarting = false) := by
  simp only [startButtonDisabled, Bool.or_eq_false_iff, Bool.not_eq_false',
    List.all_eq_true, List.mem_filter, Bool.not_eq_true', and_imp,
    Option.isSome_iff_ne_none, Bool.not_eq_true]
  tauto

/-- C4: after any non-empty sequence of `lobbyUpdate` snapshots, the players
state equals exactly the players field of the most recent snapshot —
wholesale replacement, no accumulation or merge. -/
theorem players_equal_last_snapshot (s : LobbyState)
    (snaps : List LobbySnapshot) (last : LobbySnapshot) :
    ((snaps ++ [last]).foldl onLobbyUpdate s).players = last.players := by
  simp [List.foldl_append, onLobbyUpdate]

/-- C5: processing a snapshot leaves `selectedPlaylist` unchanged when the
snapshot carries no playlist, and overwrites it (last-write-wins) when it
carries one. -/
theorem selected_playlist_frame (s : LobbyState) (snap : LobbySnapshot) :
    (snap.spotifyPlaylist = none →
      (onLobbyUpdate s snap).selectedPlaylist = s.selectedPlaylist) ∧
    (∀ pl, snap.spotifyPlaylist = some pl →
      (onLobbyUpdate s snap).selectedPlaylist = some pl) := by
  constructor
  · intro h
    simp [onLobbyUpdate, h]
  · intro pl h
    simp [onLobbyUpdate, h]

/-- A concrete playlist used by witnesses and counterexamples. -/
def examplePlaylist : Playlist :=
  { id := "pl1", name := "Road Trip", tracks := 12, imageUrl := none }

/-- Witness for C5 at a concrete state and concrete snapshots. -/
theorem selected_playlist_frame_witness :
    (onLobbyUpdate
        { players := [], isReady := false, spotifyToken := none,
          selectedPlaylist := some examplePlaylist, isStarting := false }
        { players := [], spotifyPlaylist := none }).selectedPlaylist =
      some examplePlaylist ∧
    (onLobbyUpdate
        { players := [], isReady := false, spotifyToken := none,
          selectedPlaylist := none, isStarting := false }
        { players := [], spotifyPlaylist := some examplePlaylist }).selectedPlaylist =
      some examplePlaylist := by
  refine ⟨(selected_playlist_frame _ _).1 rfl, (selected_playlist_frame _ _).2 examplePlaylist rfl⟩

/-- A client→service channel message, mirroring the payloads the page emits. -/
inductive ChannelEvent where
  | joinLobby (lobbyId playerName : String) (isHost : Bool)
  | toggleReady (lobbyId : String)
  | updatePlaylist (lobbyId playlistId playlistName : String)
  | startGame (lobbyId accessToken : String)
deriving Repr, DecidableEq

/-- The handler `handleReady`: if the socket is present, emit one `toggleReady {lobbyId}`
message and flip the local `isReady` mirror; otherwise do nothing.
Returns the list of emitted messages and the new state. -/
def handleReady (socketPresent : Bool) (lobbyId : String) (s : LobbyState) :
    List ChannelEvent × LobbyState :=
  if socketPresent then
    ([ChannelEvent.toggleReady lobbyId], { s with isReady := !s.isReady })
  else
    ([], s)

/-- C6: while the channel is available, each `handleReady` invocation emits
exactly one `toggleReady` message carrying the lobby id, flips the local
`isReady` mirror exactly once, and changes nothing else; the result is a pure
function of the invocation (no dependence on network responses). -/
theorem toggle_ready_emits_once (lobbyId : String) (s : LobbyState) :
    (handleReady true lobbyId s).1 = [ChannelEvent.toggleReady lobbyId] ∧
    (handleReady true lobbyId s).1.length = 1 ∧
    (handleReady true lobbyId s).2 = { s with isReady := !s.isReady } := by
  refine ⟨rfl, rfl, rfl⟩

/-- The callback `joinLobby`: `if (!socket || !playerName || !lobbyId) return;` then a
single `joinLobby {lobbyId, playerName, isHost}` emit.  A falsy string is the
empty string. -/
def joinLobby (socketPresent : Bool) (playerName lobbyId : String)
    (isHost : Bool) : List ChannelEvent :=
  if socketPresent && !(playerName == "") && !(lobbyId == "") then
    [ChannelEvent.joinLobby lobbyId playerName isHost]
  else
    []

/-- The mount effect's join step: `if (!socket) return;` then
`if (!socket.connected) joinLobby()`. -/
def mountJoinEmits (socketPresent connected : Bool)
    (playerName lobbyId : String) (isHost : Bool) : List ChannelEvent :=
  if socketPresent then
    if !connected then joinLobby socketPresent playerName lobbyId isHost
    else []
  else []

/-- C8: per mount with a non-empty player name and lobby id, the join event
carrying `{lobbyId, playerName, isHost}` is emitted exactly once when the
channel is not already connected, and zero times when it is. -/
theorem join_emitted_once_iff_disconnected (playerName lobbyId : String)
    (isHost : Bool) (hn : playerName ≠ "") (hl : lobbyId ≠ "") :
    mountJoinEmits true false playerName lobbyId isHost =
      [ChannelEvent.joinLobby lobbyId playerName isHost] ∧
    mountJoinEmits true true playerName lobbyId isHost = [] := by
  constructor
  · simp [mountJoinEmits, joinLobby, hn, hl]
  · simp [mountJoinEmits]

/-- Witness for C8 at the spec's example: name "Ada", host, lobby "ABCD". -/
theorem join_emitted_once_iff_disconnected_witness :
    mountJoinEmits true false "Ada" "ABCD" true =
      [ChannelEvent.joinLobby "ABCD" "Ada" true] ∧
    mountJoinEmits true true "Ada" "ABCD" true = [] :=
  join_emitted_once_iff_disconnected "Ada" "ABCD" true (by decide) (by decide)

/-- A user-visible UI action performed by a handler. -/
inductive UIAction where
  | alert (message : String)
  | navigate (path : String)
  | setIsStartingFalse
deriving Repr, DecidableEq

/-- The synchronous outcome of one `handleStartGame` invocation: emitted
messages, the resulting live state, whether the two one-time listeners were
registered, and — when a timeout was scheduled — the value of the render
binding `isStarting` the timeout callback closed over (React closure
semantics: the callback reads the render's binding, not the live state). -/
structure StartGameResult where
  emits : List ChannelEvent
  state : LobbyState
  onceGameStateRegistered : Bool
  onceErrorRegistered : Bool
  timeoutCaptured : Option Bool
deriving Repr, DecidableEq

/-- The handler `handleStartGame`: `if (!socket || !selectedPlaylist || !spotifyToken)
return;` then `setIsStarting(true)`, one `startGame {lobbyId, accessToken}`
emit, `once('gameStateUpdate', …)`, `once('error', …)`, and a 5-second
`setTimeout` whose callback closes over the render's `isStarting` binding. -/
def handleStartGame (socketPresent : Bool) (lobbyId : String)
    (s : LobbyState) : StartGameResult :=
  match socketPresent, s.selectedPlaylist, s.spotifyToken with
  | true, some _, some token =>
      { emits := [ChannelEvent.startGame lobbyId token]
        state := { s with isStarting := true }
        onceGameStateRegistered := true
        onceErrorRegistered := true
        timeoutCaptured := some s.isStarting }
  | _, _, _ =>
      { emits := []
        state := s
        onceGameStateRegistered := false
        onceErrorRegistered := false
        timeoutCaptured := none }

/-- The callback scheduled by `handleStartGame`'s `setTimeout`:
`if (isStarting) { alert(…); setIsStarting(false) }`, where `isStarting`
is the render binding captured when the callback was created (`captured`)
while `setIsStarting(false)` acts on the live state (`live`). -/
def startGameTimeoutCallback (captured : Bool) (live : LobbyState) :
    List UIAction × LobbyState :=
  if captured then
    ([UIAction.alert "Game start timed out. Please try again."],
     { live with isStarting := false })
  else
    ([], live)

/-- C3 counterexample: with a socket, a selected playlist and a token but a
non-host player who is not ready, `handleStartGame` still emits the start
intent and sets `isStarting := true` — the readiness precondition claimed by
C3 is not checked inside the function. -/
def notReadyState : LobbyState :=
  { players :=
      [{ id := "h1", name := "Ada", isReady := false, isHost := true },
       { id := "p2", name := "Grace", isReady := false, isHost := false }]
    isReady := false
    spotifyToken := some "token123"
    selectedPlaylist := some examplePlaylist
    isStarting := false }

/-- C3 fails as stated: a concrete state with an unready non-host player in
which `handleStartGame` nevertheless emits and flips `isStarting`. -/
theorem start_game_ignores_readiness :
    (∃ p ∈ notReadyState.players, p.isHost = false ∧ p.isReady = false) ∧
    notReadyState.selectedPlaylist ≠ none ∧
    notReadyState.spotifyToken ≠ none ∧
    (handleStartGame true "AB12" notReadyState).emits =
      [ChannelEvent.startGame "AB12" "token123"] ∧
    (handleStartGame true "AB12" notReadyState).state.isStarting = true := by
  refine ⟨⟨{ id := "p2", name := "Grace", isReady := false, isHost := false },
    by simp [notReadyState], rfl, rfl⟩, by simp [notReadyState], by simp [notReadyState],
    rfl, rfl⟩

/-- C3 amended: `handleStartGame` emits the start intent (exactly once,
carrying the token) and sets `isStarting := true` precisely when the socket,
a playlist selection and the credential are present; when the socket, the
selection or the credential is missing it emits nothing and leaves the state
unchanged.  Readiness of non-host players is not checked here — it is
enforced only by the start control's disabled predicate. -/
theorem start_game_guard (socketPresent : Bool) (lobbyId : String)
    (s : LobbyState) :
    (∀ pl token, socketPresent = true → s.selectedPlaylist = some pl →
      s.spotifyToken = some token →
      (handleStartGame socketPresent lobbyId s).emits =
        [ChannelEvent.startGame lobbyId token] ∧
      (handleStartGame socketPresent lobbyId s).state =
        { s with isStarting := true }) ∧
    ((socketPresent = false ∨ s.selectedPlaylist = none ∨
        s.spotifyToken = none) →
      (handleStartGame socketPresent lobbyId s).emits = [] ∧
      (handleStartGame socketPresent lobbyId s).state = s) := by
  constructor
  · intro pl token hs hpl htok
    subst hs
    simp [handleStartGame, hpl, htok]
  · intro h
    rcases h with h | h | h
    · subst h; simp [handleStartGame]
    · cases socketPresent <;> simp [handleStartGame, h]
    · cases socketPresent <;> cases hpl : s.selectedPlaylist <;>
        simp [handleStartGame, hpl, h]

/-- Witness for the amended C3 at concrete inputs: both the pass branch and
the missing-token branch. -/
theorem start_game_guard_witness :
    (handleStartGame true "AB12" notReadyState).emits =
      [ChannelEvent.startGame "AB12" "token123"] ∧
    (handleStartGame true "AB12"
        { notReadyState with spotifyToken := none }).emits = [] :=
  ⟨((start_game_guard true "AB12" notReadyState).1 examplePlaylist "token123"
      rfl rfl rfl).1,
   ((start_game_guard true "AB12" { notReadyState with spotifyToken := none }).2
      (Or.inr (Or.inr rfl))).1⟩

/-- C2: the failing scenario.  `handleStartGame` is invoked from a render in
which `isStarting = false` (the only renders whose start control is enabled),
so the scheduled timeout callback captured `false`; when the timer fires with
no success and no error having arrived, the live flag is still `true`, yet
the callback alerts nothing and leaves `isStarting = true`: the promised
timeout failure transition never happens (stale-closure bug). -/
theorem start_game_timeout_never_fires :
    notReadyState.isStarting = false ∧
    (handleStartGame true "AB12" notReadyState).timeoutCaptured = some false ∧
    (handleStartGame true "AB12" notReadyState).state.isStarting = true ∧
    startGameTimeoutCallback false
        (handleStartGame true "AB12" notReadyState).state =
      ([], (handleStartGame true "AB12" notReadyState).state) := by
  refine ⟨rfl, rfl, rfl, rfl⟩

/-- An active subscription to the channel's `error` event: the persistent
one registered by the mount effect, or the one-time one registered by
`handleStartGame` while a start is pending. -/
inductive ErrorSub where
  | persistent
  | startOnce
deriving Repr, DecidableEq

/-- What each `error` subscription does when an error event arrives.
The persistent handler: `alert(message); router.push('/')`.
The start-game `once` handler: `alert('Failed to start game. Please try
again.'); setIsStarting(false)` (the setter acts on the live state). -/
def runErrorSub (message : String) : ErrorSub → List UIAction
  | ErrorSub.persistent => [UIAction.alert message, UIAction.navigate "/"]
  | ErrorSub.startOnce =>
      [UIAction.alert "Failed to start game. Please try again.",
       UIAction.setIsStartingFalse]

/-- Dispatching one `error` event runs every currently-registered `error`
subscription, in registration order. -/
def dispatchError (subs : List ErrorSub) (message : String) : List UIAction :=
  subs.flatMap (runErrorSub message)

/-- Did this action show an alert to the user? -/
def isAlert : UIAction → Bool
  | UIAction.alert _ => true
  | _ => false

/-- C9: whenever the persistent subscription is registered, every error
event surfaces its message and then navigates back to the entry screen,
unconditionally: the handler is exactly alert-then-navigate, and the
dispatch of any error event performs both actions. -/
theorem persistent_error_alerts_then_navigates (subs : List ErrorSub)
    (message : String) (h : ErrorSub.persistent ∈ subs) :
    runErrorSub message ErrorSub.persistent =
      [UIAction.alert message, UIAction.navigate "/"] ∧
    UIAction.alert message ∈ dispatchError subs message ∧
    UIAction.navigate "/" ∈ dispatchError subs message := by
  refine ⟨rfl, ?_, ?_⟩
  · exact List.mem_flatMap.2 ⟨ErrorSub.persistent, h, by simp [runErrorSub]⟩
  · exact List.mem_flatMap.2 ⟨ErrorSub.persistent, h, by simp [runErrorSub]⟩

/-- Witness for C9 with only the persistent subscription registered. -/
theorem persistent_error_alerts_then_navigates_witness :
    UIAction.navigate "/" ∈
      dispatchError [ErrorSub.persistent] "Lobby not found" :=
  (persistent_error_alerts_then_navigates [ErrorSub.persistent]
    "Lobby not found" (by simp)).2.2

/-- The `error` subscriptions registered while a start is pending: the
persistent one from the mount effect (registered first) plus, when
`handleStartGame` registered its one-time handler, that handler. -/
def subsDuringStart (r : StartGameResult) : List ErrorSub :=
  ErrorSub.persistent ::
    (if r.onceErrorRegistered then [ErrorSub.startOnce] else [])

/-- C10: while a start is pending (socket, selection and credential were
present, so `handleStartGame` registered its one-time error handler), a
single error event triggers both subscriptions: the user is alerted twice,
`isStarting` is reset, and the view navigates back to the entry screen. -/
theorem pending_start_error_double_handling (lobbyId message : String)
    (s : LobbyState) (pl : Playlist) (token : String)
    (hpl : s.selectedPlaylist = some pl) (htok : s.spotifyToken = some token) :
    dispatchError (subsDuringStart (handleStartGame true lobbyId s)) message =
      [UIAction.alert message, UIAction.navigate "/",
       UIAction.alert "Failed to start game. Please try again.",
       UIAction.setIsStartingFalse] ∧
    ((dispatchError (subsDuringStart (handleStartGame true lobbyId s))
        message).filter isAlert).length = 2 ∧
    UIAction.setIsStartingFalse ∈
      dispatchError (subsDuringStart (handleStartGame true lobbyId s)) message ∧
    UIAction.navigate "/" ∈
      dispatchError (subsDuringStart (handleStartGame true lobbyId s)) message := by
  have hreg : (handleStartGame true lobbyId s).onceErrorRegistered = true := by
    simp [handleStartGame, hpl, htok]
  refine ⟨?_, ?_, ?_, ?_⟩ <;>
    simp [subsDuringStart, hreg, dispatchError, runErrorSub, isAlert]

/-- Witness for C10 at a concrete pending start. -/
theorem pending_start_error_double_handling_witness :
    dispatchError (subsDuringStart (handleStartGame true "AB12" notReadyState))
        "boom" =
      [UIAction.alert "boom", UIAction.navigate "/",
       UIAction.alert "Failed to start game. Please try again.",
       UIAction.setIsStartingFalse] :=
  (pending_start_error_double_handling "AB12" "boom" notReadyState
    examplePlaylist "token123" rfl rfl).1

/-- A raw item of the catalog response `{items:[{id, name, tracks:{total},
images:[{url}]}]}`.  `name = none` models a missing or falsy name;
`tracks = some t` models a present (truthy) `tracks` object whose `total`
is `t` (inner `none`: `total` missing); `tracks = none` models a missing or
falsy `tracks` field; `images = none` models a missing `images` array, and
each element is the `url` of one image object. -/
structure CatalogItem where
  id : String
  name : Option String
  tracks : Option (Option Nat)
  images : Option (List String)
deriving Repr, DecidableEq

/-- The source's filter predicate `item => item && item.tracks`; a `none`
argument models a null/undefined array element. -/
def keepItem : Option CatalogItem → Bool
  | none => false
  | some item => item.tracks.isSome

/-- The source's map step:
`{id: item.id, name: item.name || 'Unnamed Playlist',
tracks: item.tracks.total || 0, imageUrl: item.images?.[0]?.url || null}`. -/
def formatItem (item : CatalogItem) : Playlist :=
  { id := item.id
    name := item.name.getD "Unnamed Playlist"
    tracks := (item.tracks.getD none).getD 0
    imageUrl := item.images.bind List.head? }

/-- One entry's contribution: `none` for an entry the filter drops, the
formatted playlist for one it keeps. -/
def formatEntry : Option CatalogItem → Option Playlist
  | none => none
  | some item => if item.tracks.isSome then some (formatItem item) else none

/-- The `formattedPlaylists` computation of `handleSpotifyAuth`:
`data.items.filter(item => item && item.tracks).map(…)`, with the filter and
the map fused into a single `filterMap` over the raw entries. -/
def formattedPlaylists (items : List (Option CatalogItem)) : List Playlist :=
  items.filterMap formatEntry

theorem formatEntry_eq_none (x : Option CatalogItem) (h : keepItem x = false) :
    formatEntry x = none := by
  cases x with
  | none => rfl
  | some item =>
      simp only [keepItem] at h
      simp [formatEntry, h]

theorem formatEntry_eq_some (a : CatalogItem) (h : a.tracks.isSome = true) :
    formatEntry (some a) = some (formatItem a) := by
  simp [formatEntry, h]

/-- C7: the formatter drops exactly the entries lacking track metadata and
keeps the rest in input order, pointwise formatted; a missing name defaults
to "Unnamed Playlist" and missing artwork to absent; in particular every
3-item response with exactly one trackless entry yields exactly the other
two formatted playlists in their original order, whichever position the
trackless entry had. -/
theorem catalog_formatter_correct (l1 l2 : List (Option CatalogItem))
    (a : CatalogItem) (x : Option CatalogItem) :
    (keepItem x = false →
      formattedPlaylists (l1 ++ x :: l2) =
        formattedPlaylists l1 ++ formattedPlaylists l2) ∧
    (a.tracks.isSome = true →
      formattedPlaylists (l1 ++ some a :: l2) =
        formattedPlaylists l1 ++ formatItem a :: formattedPlaylists l2) ∧
    (a.name = none → (formatItem a).name = "Unnamed Playlist") ∧
    (a.images = none → (formatItem a).imageUrl = none) ∧
    (a.images = some [] → (formatItem a).imageUrl = none) ∧
    (∀ b c : CatalogItem, b.tracks.isSome = true → c.tracks.isSome = true →
      keepItem x = false →
      formattedPlaylists [x, some b, some c] =
        [formatItem b, formatItem c] ∧
      formattedPlaylists [some b, x, some c] =
        [formatItem b, formatItem c] ∧
      formattedPlaylists [some b, some c, x] =
        [formatItem b, formatItem c]) := by
  refine ⟨?_, ?_, ?_, ?_, ?_, ?_⟩
  · intro hx
    simp [formattedPlaylists, List.filterMap_append, List.filterMap_cons,
      formatEntry_eq_none x hx]
  · intro ha
    simp [formattedPlaylists, List.filterMap_append, List.filterMap_cons,
      formatEntry_eq_some a ha]
  · intro h
    simp [formatItem, h]
  · intro h
    simp [formatItem, h]
  · intro h
    simp [formatItem, h]
  · intro b c hb hc hx
    refine ⟨?_, ?_, ?_⟩ <;>
      simp [formattedPlaylists, List.filterMap_cons,
        formatEntry_eq_none x hx, formatEntry_eq_some b hb,
        formatEntry_eq_some c hc]

/-- Concrete catalog items for the C7 witness: one with full metadata, one
with a missing name, a missing total and no artwork, one lacking `tracks`. -/
def itemFull : CatalogItem :=
  { id := "a", name := some "Jazz", tracks := some (some 5),
    images := some ["urlA"] }

def itemBare : CatalogItem :=
  { id := "b", name := none, tracks := some none, images := none }

def itemNoTracks : CatalogItem :=
  { id := "x", name := some "Broken", tracks := none, images := none }

/-- Witness for C7: a concrete 3-item response whose middle entry lacks
`tracks` formats to exactly the other two, in order, with the defaults. -/
theorem catalog_formatter_correct_witness :
    formattedPlaylists [some itemFull, some itemNoTracks, some itemBare] =
      [formatItem itemFull, formatItem itemBare] ∧
    (formatItem itemBare).name = "Unnamed Playlist" ∧
    (formatItem itemBare).imageUrl = none := by
  have h := catalog_formatter_correct [] [] itemBare (some itemNoTracks)
  exact ⟨(h.2.2.2.2.2 itemFull itemBare rfl rfl rfl).2.1,
    h.2.2.1 rfl, h.2.2.2.1 rfl⟩

end Playlisto
